import Mathlib

/-!
Shallow embedding of `slider/model/features.py`: feature extraction from
beatmaps and replays for the osu! accuracy model.

Python floats are modelled as rationals (`ℚ`), so every arithmetic step of
the source is exact here.  `np.arctan2` is a transcendental function on
floats; it is abstracted as an explicit parameter `atan2F : ℚ → ℚ → ℚ`
threaded through the pipeline, since no property below depends on its
values.  Code that raises in Python (`np.max` on an empty axis,
`np.empty` with a negative dimension) is modelled with `Option`.
-/

/-- Playfield position of a hit object (`hit_object.position`). -/
structure Position where
  x : ℚ
  y : ℚ
deriving DecidableEq

/-- Closed set of hit-object type tags (`Circle`, `Slider`, everything else
is a spinner in `count_hit_objects`). -/
inductive HitObjectKind where
  | circle
  | slider
  | spinner
deriving DecidableEq

/-- A timed, positioned gameplay target.  `time` is the offset in seconds
(`hit_object.time.total_seconds()`). -/
structure HitObject where
  position : Position
  time : ℚ
  kind : HitObjectKind
deriving DecidableEq

/-- The beatmap interface consumed by `extract_features`: ordered hit
objects plus the scalar difficulty parameters. -/
structure Beatmap where
  hit_objects : List HitObject
  hp : ℚ
  cs : ℚ
  od : ℚ
  ar : ℚ
  bpm_min : ℚ
  bpm_max : ℚ
  slider_multiplier : ℚ
  slider_tick_rate : ℚ
deriving DecidableEq

/-- Modelled from the spec: the `Beatmap.hit_objects_no_spinners` accessor
lives in the repository's `beatmap` module, which is not under `src/`.
Per §4.5 the angle statistics are computed over hit objects with spinners
excluded, so the accessor filters spinners out of the ordered sequence. -/
def Beatmap.hit_objects_no_spinners (b : Beatmap) : List HitObject :=
  b.hit_objects.filter fun h => h.kind != HitObjectKind.spinner

/-- `hit_object_coordinates`: the x series, y series and z series of the
hit objects, where z is the time in seconds times 100. -/
def hit_object_coordinates (hit_objects : List HitObject) :
    List ℚ × List ℚ × List ℚ :=
  (hit_objects.map fun h => h.position.x,
   hit_objects.map fun h => h.position.y,
   hit_objects.map fun h => h.time * 100)

/-- `np.diff` along a series: consecutive differences. -/
def diffs (l : List ℚ) : List ℚ :=
  (l.zip l.tail).map fun p => p.2 - p.1

/-- `hit_object_angles`: pitch, roll and yaw between consecutive hit
objects, with `np.arctan2` abstracted as `atan2F`.  Pitch is
`atan2(dy, dz)`, roll is `atan2(dy, dx)`, yaw is `atan2(dz, dx)`. -/
def hit_object_angles (atan2F : ℚ → ℚ → ℚ) (hit_objects : List HitObject) :
    List ℚ × List ℚ × List ℚ :=
  let c := hit_object_coordinates hit_objects
  let dx := diffs c.1
  let dy := diffs c.2.1
  let dz := diffs c.2.2
  (List.zipWith atan2F dy dz,
   List.zipWith atan2F dy dx,
   List.zipWith atan2F dz dx)

/-- Result triple of `count_hit_objects`. -/
structure hit_object_count where
  circles : ℕ
  sliders : ℕ
  spinners : ℕ
deriving DecidableEq

/-- `count_hit_objects`: count circles, sliders, and everything else as
spinners. -/
def count_hit_objects (hit_objects : List HitObject) : hit_object_count :=
  hit_objects.foldl
    (fun acc h =>
      match h.kind with
      | HitObjectKind.circle => ⟨acc.circles + 1, acc.sliders, acc.spinners⟩
      | HitObjectKind.slider => ⟨acc.circles, acc.sliders + 1, acc.spinners⟩
      | HitObjectKind.spinner => ⟨acc.circles, acc.sliders, acc.spinners + 1⟩)
    ⟨0, 0, 0⟩

/-- Modelled from the spec: `ar_to_ms` lives in the repository's `mod`
module, which is not under `src/`.  §4.4 describes the pair as a
monotonic, piecewise-linear conversion between the approach-rate scale
and a lead-time duration in milliseconds, exactly invertible. -/
def ar_to_ms (ar : ℚ) : ℚ :=
  if ar ≤ 5 then 1800 - 120 * ar else 1200 - 150 * (ar - 5)

/-- Modelled from the spec: inverse of `ar_to_ms`, also from the `mod`
module which is not under `src/` (see `ar_to_ms`). -/
def ms_to_ar (ms : ℚ) : ℚ :=
  if 1200 ≤ ms then (1800 - ms) / 120 else 5 + (1200 - ms) / 150

/-- `np.mean` over a nonempty list (sum divided by length). -/
def listMean (l : List ℚ) : ℚ := l.sum / l.length

/-- Insertion step of the numeric sort used by `listMedian`. -/
def insertQ (x : ℚ) : List ℚ → List ℚ
  | [] => [x]
  | y :: ys => if x ≤ y then x :: y :: ys else y :: insertQ x ys

/-- Numeric ascending sort (`np.median` sorts its input). -/
def sortQ (l : List ℚ) : List ℚ := l.foldr insertQ []

/-- `np.median` over a nonempty list: middle element of the sorted list,
or the average of the two middle elements for even length. -/
def listMedian (l : List ℚ) : ℚ :=
  let s := sortQ l
  let n := s.length
  if n % 2 = 1 then s.getD (n / 2) 0
  else (s.getD (n / 2 - 1) 0 + s.getD (n / 2) 0) / 2

/-- `np.max` over a nonempty list (`np.max` raises on an empty axis; the
empty case is unreachable behind the length guard in `extract_features`). -/
def listMax : List ℚ → ℚ
  | [] => 0
  | x :: xs => xs.foldl max x

/-- Python `float(flag)`: 1.0 for True, 0.0 for False. -/
def boolToQ (b : Bool) : ℚ := cond b 1 0

/-- The easy / hard_rock resolution stage of `extract_features`
(lines 169-174): `if easy: od /= 2; ar /= 2  elif hard_rock:
od = min(1.4 * od, 10); ar = min(1.4 * ar, 10)`. -/
def odArResolve (easy hard_rock : Bool) (od ar : ℚ) : ℚ × ℚ :=
  if easy then (od / 2, ar / 2)
  else if hard_rock then (min (14 / 10 * od) 10, min (14 / 10 * ar) 10)
  else (od, ar)

/-- The half_time / double_time resolution stage of `extract_features`
(lines 179-186), acting on AR, bpm_min and bpm_max. -/
def arBpmResolve (half_time double_time : Bool) (ar bpm_min bpm_max : ℚ) :
    ℚ × ℚ × ℚ :=
  if half_time then
    (ms_to_ar (4 * ar_to_ms ar / 3), bpm_min * (3 / 4), bpm_max * (3 / 4))
  else if double_time then
    (ms_to_ar (2 * ar_to_ms ar / 3), bpm_min * (3 / 2), bpm_max * (3 / 2))
  else (ar, bpm_min, bpm_max)

/-- The literal feature dictionary returned by `extract_features`, as an
association list in the source's insertion order. -/
def featDict (hp cs od ar : ℚ)
    (easy hidden hard_rock double_time half_time flashlight : Bool)
    (bpm_min bpm_max : ℚ) (circles sliders spinners : ℕ)
    (slider_multiplier slider_tick_rate : ℚ)
    (mean_pitch mean_roll mean_yaw median_pitch median_roll median_yaw
      max_pitch max_roll max_yaw : ℚ) : List (String × ℚ) :=
  [("HP", hp), ("CS", cs), ("OD", od), ("AR", ar),
   ("easy", boolToQ easy), ("hidden", boolToQ hidden),
   ("hard_rock", boolToQ hard_rock), ("double_time", boolToQ double_time),
   ("half_time", boolToQ half_time), ("flashlight", boolToQ flashlight),
   ("bpm-min", bpm_min), ("bpm-max", bpm_max),
   ("circle-count", (circles : ℚ)), ("slider-count", (sliders : ℚ)),
   ("spinner-count", (spinners : ℚ)),
   ("slider-multiplier", slider_multiplier),
   ("slider-tick-rate", slider_tick_rate),
   ("mean-pitch", mean_pitch), ("mean-roll", mean_roll),
   ("mean-yaw", mean_yaw),
   ("median-pitch", median_pitch), ("median-roll", median_roll),
   ("median-yaw", median_yaw),
   ("max-pitch", max_pitch), ("max-roll", max_roll), ("max-yaw", max_yaw)]

/-- The dict literal returned by `extract_features` (lines 188-226),
with every value as the source computes it. -/
def featBody (atan2F : ℚ → ℚ → ℚ) (beatmap : Beatmap)
    (easy hidden hard_rock double_time half_time flashlight : Bool) :
    List (String × ℚ) :=
  let hons := beatmap.hit_objects_no_spinners
  let a := hit_object_angles atan2F hons
  let pitchA := a.1.map abs
  let rollA := a.2.1.map abs
  let yawA := a.2.2.map abs
  let counts := count_hit_objects beatmap.hit_objects
  let odar := odArResolve easy hard_rock beatmap.od beatmap.ar
  let arbpm :=
    arBpmResolve half_time double_time odar.2 beatmap.bpm_min beatmap.bpm_max
  featDict beatmap.hp beatmap.cs odar.1 arbpm.1
    easy hidden hard_rock double_time half_time flashlight
    arbpm.2.1 arbpm.2.2
    counts.circles counts.sliders counts.spinners
    beatmap.slider_multiplier beatmap.slider_tick_rate
    (listMean pitchA) (listMean rollA) (listMean yawA)
    (listMedian pitchA) (listMedian rollA) (listMedian yawA)
    (listMax pitchA) (listMax rollA) (listMax yawA)

/-- `extract_features`: the feature mapping for one beatmap and one set of
modifier flags, in the source's parameter order.  When the spinner-excluded
sequence has fewer than 2 elements the Python code raises inside numpy
(`np.max` of an empty axis for length 1, a negative `np.empty` dimension
for length 0), modelled as `none`. -/
def extract_features (atan2F : ℚ → ℚ → ℚ) (beatmap : Beatmap)
    (easy hidden hard_rock double_time relax half_time flashlight : Bool) :
    Option (List (String × ℚ)) :=
  if 2 ≤ beatmap.hit_objects_no_spinners.length then
    some (featBody atan2F beatmap easy hidden hard_rock double_time
      half_time flashlight)
  else none

/-- Python string comparison (`<` on str): lexicographic on code points. -/
def charListLt : List Char → List Char → Bool
  | [], [] => false
  | [], _ :: _ => true
  | _ :: _, [] => false
  | c :: cs, d :: ds =>
    if c.val < d.val then true
    else if d.val < c.val then false
    else charListLt cs ds

/-- Python `a < b` on strings. -/
def strLt (a b : String) : Bool := charListLt a.data b.data

/-- Insertion step of the key sort used by `extract_feature_array`
(`sorted(..., key=_fst)`; all keys are distinct, so any comparison sort
produces the same, unique result). -/
def insertByKey (p : String × ℚ) : List (String × ℚ) → List (String × ℚ)
  | [] => [p]
  | q :: qs => if strLt p.1 q.1 then p :: q :: qs else q :: insertByKey p qs

/-- `sorted(extract_features(...).items(), key=_fst)`. -/
def sortByKey (l : List (String × ℚ)) : List (String × ℚ) :=
  l.foldr insertByKey []

/-- Insertion step of `sortStrs`, mirroring `insertByKey` on bare keys. -/
def insertStr (s : String) : List String → List String
  | [] => [s]
  | t :: ts => if strLt s t then s :: t :: ts else t :: insertStr s ts

/-- Key-only counterpart of `sortByKey`. -/
def sortStrs (l : List String) : List String := l.foldr insertStr []

/-- The six feature-relevant modifier flags passed by the Dataset Builder
(the mods dict built in `extract_from_replay_directory`). -/
structure Mods where
  easy : Bool
  hidden : Bool
  hard_rock : Bool
  double_time : Bool
  half_time : Bool
  flashlight : Bool
deriving DecidableEq

/-- A Python list comprehension whose element computation may raise:
`none` as soon as any element fails, otherwise the list of results. -/
def traverseOption (f : α → Option β) : List α → Option (List β)
  | [] => some []
  | x :: xs =>
    match f x, traverseOption f xs with
    | some y, some ys => some (y :: ys)
    | _, _ => none

/-- `extract_feature_array`: keep the pairs whose beatmap has at least 2
hit objects (spinners included), then build each row by sorting the
feature items by name and taking the values.  `relax` is not in the mods
dict and defaults to False in `extract_features`. -/
def extract_feature_array (atan2F : ℚ → ℚ → ℚ)
    (beatmaps_and_mods : List (Beatmap × Mods)) : Option (List (List ℚ)) :=
  traverseOption
    (fun bm =>
      (extract_features atan2F bm.1 bm.2.easy bm.2.hidden bm.2.hard_rock
          bm.2.double_time false bm.2.half_time bm.2.flashlight).map
        fun feats => (sortByKey feats).map Prod.snd)
    (beatmaps_and_mods.filter fun bm => 2 ≤ bm.1.hit_objects.length)

/-- The replay interface consumed by `extract_from_replay_directory`:
resolved beatmap, timestamp (seconds), modifier flag accessors, and the
achieved accuracy. -/
structure Replay where
  beatmap : Beatmap
  timestamp : ℚ
  autoplay : Bool
  spun_out : Bool
  auto_pilot : Bool
  cinema : Bool
  relax : Bool
  easy : Bool
  hidden : Bool
  hard_rock : Bool
  double_time : Bool
  half_time : Bool
  flashlight : Bool
  accuracy : ℚ
deriving DecidableEq

/-- A directory entry from `os.scandir`: a file name and the replay it
parses to. -/
structure DirEntry where
  name : String
  replay : Replay
deriving DecidableEq

/-- The skill-filter of `extract_from_replay_directory` (lines 300-306):
plays with any of these mods are not representative of user skill. -/
def modExcluded (r : Replay) : Bool :=
  r.autoplay || r.spun_out || r.auto_pilot || r.cinema || r.relax

/-- The age filter (line 297): skip when `now - timestamp > age`
(strict, so boundary records are kept). -/
def ageExcluded (now : ℚ) (age : Option ℚ) (r : Replay) : Bool :=
  match age with
  | none => false
  | some a => decide (now - r.timestamp > a)

/-- Python `name.endswith(suffix)`: character-level suffix test. -/
def strEndsWith (s suffix : String) : Bool :=
  suffix.data.isSuffixOf s.data

/-- A directory entry survives the scan loop when its name has the replay
extension, it passes the age filter, and it passes the skill filter, in
the source's order of checks. -/
def keepEntry (now : ℚ) (age : Option ℚ) (e : DirEntry) : Bool :=
  strEndsWith e.name (".osr") && !(ageExcluded now age e.replay)
    && !(modExcluded e.replay)

/-- The mods dict built for one surviving replay (lines 309-316). -/
def replayMods (r : Replay) : Mods :=
  ⟨r.easy, r.hidden, r.hard_rock, r.double_time, r.half_time, r.flashlight⟩

/-- `extract_from_replay_directory`: scan the entries, keep the surviving
replays, then return `extract_feature_array` of their (beatmap, mods)
pairs paired with the list of their accuracies.  `now` stands for
`datetime.utcnow()`. -/
def extract_from_replay_directory (atan2F : ℚ → ℚ → ℚ)
    (entries : List DirEntry) (now : ℚ) (age : Option ℚ) :
    Option (List (List ℚ)) × List ℚ :=
  let kept := entries.filter (keepEntry now age)
  (extract_feature_array atan2F
      (kept.map fun e => (e.replay.beatmap, replayMods e.replay)),
   kept.map fun e => e.replay.accuracy)

/-- The feature names in the source's insertion order (the keys of the
dict literal of `extract_features`). -/
def schemaKeys : List String :=
  [("HP"), ("CS"), ("OD"), ("AR"), ("easy"), ("hidden"), ("hard_rock"),
   ("double_time"), ("half_time"), ("flashlight"), ("bpm-min"), ("bpm-max"),
   ("circle-count"), ("slider-count"), ("spinner-count"),
   ("slider-multiplier"), ("slider-tick-rate"),
   ("mean-pitch"), ("mean-roll"), ("mean-yaw"),
   ("median-pitch"), ("median-roll"), ("median-yaw"),
   ("max-pitch"), ("max-roll"), ("max-yaw")]

/-- The feature names in lexicographic (code-point) order: the column
order of every row of the feature matrix. -/
def sortedSchemaKeys : List String :=
  [("AR"), ("CS"), ("HP"), ("OD"), ("bpm-max"), ("bpm-min"),
   ("circle-count"), ("double_time"), ("easy"), ("flashlight"),
   ("half_time"), ("hard_rock"), ("hidden"),
   ("max-pitch"), ("max-roll"), ("max-yaw"),
   ("mean-pitch"), ("mean-roll"), ("mean-yaw"),
   ("median-pitch"), ("median-roll"), ("median-yaw"),
   ("slider-count"), ("slider-multiplier"), ("slider-tick-rate"),
   ("spinner-count")]

/-! ## Helper lemmas -/

theorem insertByKey_map_fst (p : String × ℚ) (l : List (String × ℚ)) :
    (insertByKey p l).map Prod.fst = insertStr p.1 (l.map Prod.fst) := by
  induction l with
  | nil => rfl
  | cons q qs ih =>
    simp only [insertByKey, insertStr, List.map]
    split
    · rfl
    · simp [ih]

theorem sortByKey_map_fst (l : List (String × ℚ)) :
    (sortByKey l).map Prod.fst = sortStrs (l.map Prod.fst) := by
  induction l with
  | nil => rfl
  | cons p ps ih =>
    simp only [sortByKey, sortStrs, List.foldr, List.map] at *
    rw [insertByKey_map_fst, ih]

theorem sortStrs_schemaKeys : sortStrs schemaKeys = sortedSchemaKeys := by
  decide

theorem extract_features_some_eq (atan2F : ℚ → ℚ → ℚ) (b : Beatmap)
    (e hi hr dt r ht fl : Bool) (feats : List (String × ℚ))
    (hf : extract_features atan2F b e hi hr dt r ht fl = some feats) :
    feats = featBody atan2F b e hi hr dt ht fl := by
  unfold extract_features at hf
  split at hf
  · exact (Option.some.inj hf).symm
  · exact absurd hf (by simp)

theorem listMean_single (x : ℚ) : listMean [x] = x := by
  simp [listMean]

theorem listMedian_single (x : ℚ) : listMedian [x] = x := by
  simp [listMedian, sortQ, insertQ]

theorem listMax_single (x : ℚ) : listMax [x] = x := rfl

theorem hit_object_angles_pair (atan2F : ℚ → ℚ → ℚ) (o1 o2 : HitObject) :
    hit_object_angles atan2F [o1, o2] =
      ([atan2F (o2.position.y - o1.position.y) (o2.time * 100 - o1.time * 100)],
       [atan2F (o2.position.y - o1.position.y) (o2.position.x - o1.position.x)],
       [atan2F (o2.time * 100 - o1.time * 100) (o2.position.x - o1.position.x)]) :=
  rfl

/-! ## Claim C3 -/

/-- Claim C3 counterexample: with both easy and hard_rock set and base
OD = AR = 10, the resolver halves (easy's transform, giving 5) instead of
applying the hard_rock transform (which would give min(1.4 × 10, 10) = 10).
So hard_rock does not win. -/
theorem easy_and_hard_rock_counterexample :
    odArResolve true true 10 10 = (10 / 2, 10 / 2) ∧
      odArResolve true true 10 10 ≠
        (min (14 / 10 * 10) 10, min (14 / 10 * 10) 10) := by
  constructor
  · rfl
  · intro h
    rw [odArResolve] at h
    norm_num at h

/-- Claim C3 (amended): when both easy and hard_rock are set, the
`if easy ... elif hard_rock` chain applies the easy halving and not the
hard_rock transformation — easy wins. -/
theorem easy_wins_when_both_flags_set (od ar : ℚ) :
    odArResolve true true od ar = (od / 2, ar / 2) := rfl

/-! ## Claim C4 -/

/-- Claim C4: for base OD and AR in [0, 10], the hard_rock resolution
(easy unset, hard_rock set) caps both effective values at 10. -/
theorem hard_rock_caps_at_ten (od ar : ℚ) (h1 : 0 ≤ od) (h2 : od ≤ 10)
    (h3 : 0 ≤ ar) (h4 : ar ≤ 10) :
    (odArResolve false true od ar).1 ≤ 10 ∧
      (odArResolve false true od ar).2 ≤ 10 :=
  ⟨min_le_right _ _, min_le_right _ _⟩

/-- Claim C4 witness at OD = AR = 10. -/
theorem hard_rock_caps_at_ten_witness :
    (odArResolve false true 10 10).1 ≤ 10 ∧
      (odArResolve false true 10 10).2 ≤ 10 :=
  hard_rock_caps_at_ten 10 10 (by norm_num) (by norm_num) (by norm_num)
    (by norm_num)

/-! ## Claim C5 -/

/-- Claim C5: whenever `extract_features` returns a mapping, its keys are
exactly the fixed schema (here: the exact key list, in the source's
insertion order), and sorting the items by name always yields the same
lexicographic column order. -/
theorem extract_features_fixed_schema (atan2F : ℚ → ℚ → ℚ) (b : Beatmap)
    (e hi hr dt r ht fl : Bool) (feats : List (String × ℚ))
    (hf : extract_features atan2F b e hi hr dt r ht fl = some feats) :
    feats.map Prod.fst = schemaKeys ∧
      (sortByKey feats).map Prod.fst = sortedSchemaKeys := by
  have hb := extract_features_some_eq atan2F b e hi hr dt r ht fl feats hf
  subst hb
  refine ⟨rfl, ?_⟩
  rw [sortByKey_map_fst]
  exact sortStrs_schemaKeys

/-! ## Claim C6 -/

/-- Claim C6: with every modifier flag false, the difficulty resolution is
the identity — the output's OD, AR, HP, CS, bpm-min and bpm-max entries
are the beatmap's base values. -/
theorem no_mods_identity (atan2F : ℚ → ℚ → ℚ) (b : Beatmap)
    (feats : List (String × ℚ))
    (hf : extract_features atan2F b false false false false false false false
      = some feats) :
    List.lookup ("OD") feats = some b.od ∧
      List.lookup ("AR") feats = some b.ar ∧
      List.lookup ("HP") feats = some b.hp ∧
      List.lookup ("CS") feats = some b.cs ∧
      List.lookup ("bpm-min") feats = some b.bpm_min ∧
      List.lookup ("bpm-max") feats = some b.bpm_max := by
  have hb := extract_features_some_eq atan2F b false false false false false
    false false feats hf
  subst hb
  exact ⟨rfl, rfl, rfl, rfl, rfl, rfl⟩

/-! ## Claim C7 -/

/-- Claim C7: for every combination of modifier flags, the HP and CS
entries of the output are the beatmap's base HP and CS — no flag modifies
them. -/
theorem hp_cs_never_modified (atan2F : ℚ → ℚ → ℚ) (b : Beatmap)
    (e hi hr dt r ht fl : Bool) (feats : List (String × ℚ))
    (hf : extract_features atan2F b e hi hr dt r ht fl = some feats) :
    List.lookup ("HP") feats = some b.hp ∧
      List.lookup ("CS") feats = some b.cs := by
  have hb := extract_features_some_eq atan2F b e hi hr dt r ht fl feats hf
  subst hb
  exact ⟨rfl, rfl⟩

/-! ## Claim C9 -/

/-- Claim C9: on a spinner-excluded sequence of exactly 2 hit objects
(one displacement), the mean, median and max agree for each of pitch,
roll and yaw; the input is valid (the extraction succeeds). -/
theorem two_object_stats_coincide (atan2F : ℚ → ℚ → ℚ) (b : Beatmap)
    (e hi hr dt r ht fl : Bool) (feats : List (String × ℚ))
    (h2 : b.hit_objects_no_spinners.length = 2)
    (hf : extract_features atan2F b e hi hr dt r ht fl = some feats) :
    List.lookup ("mean-pitch") feats = List.lookup ("median-pitch") feats ∧
      List.lookup ("median-pitch") feats = List.lookup ("max-pitch") feats ∧
      List.lookup ("mean-roll") feats = List.lookup ("median-roll") feats ∧
      List.lookup ("median-roll") feats = List.lookup ("max-roll") feats ∧
      List.lookup ("mean-yaw") feats = List.lookup ("median-yaw") feats ∧
      List.lookup ("median-yaw") feats = List.lookup ("max-yaw") feats := by
  have hb := extract_features_some_eq atan2F b e hi hr dt r ht fl feats hf
  subst hb
  obtain ⟨o1, o2, hl⟩ := List.length_eq_two.mp h2
  simp only [featBody, hl, hit_object_angles_pair, List.map,
    listMean_single, listMedian_single, listMax_single]
  exact ⟨rfl, rfl, rfl, rfl, rfl, rfl⟩

/-! ## Claim C10 -/

/-- Claim C10: the relax argument has no effect on the output of
`extract_features`, and no key of the output mentions it. -/
theorem relax_has_no_effect (atan2F : ℚ → ℚ → ℚ) (b : Beatmap)
    (e hi hr dt r1 r2 ht fl : Bool) (feats : List (String × ℚ))
    (hf : extract_features atan2F b e hi hr dt r1 ht fl = some feats) :
    extract_features atan2F b e hi hr dt r2 ht fl = some feats ∧
      ("relax") ∉ feats.map Prod.fst := by
  refine ⟨hf, ?_⟩
  have hb := extract_features_some_eq atan2F b e hi hr dt r1 ht fl feats hf
  subst hb
  exact (by decide : ("relax") ∉ schemaKeys)

/-! ## Concrete inputs for witnesses and failing-input evaluations -/

/-- A concrete stand-in for `np.arctan2`. -/
def wAtan : ℚ → ℚ → ℚ := fun _ _ => 0

/-- A well-formed beatmap: two circles, no spinner. -/
def wB : Beatmap :=
  ⟨[⟨⟨0, 0⟩, 0, HitObjectKind.circle⟩,
    ⟨⟨3, 4⟩, 1 / 100, HitObjectKind.circle⟩],
   1, 2, 3, 4, 5, 6, 7, 8⟩

/-- The feature mapping of `wB` with all flags false and `wAtan` angles. -/
def wFeats : List (String × ℚ) :=
  [("HP", 1), ("CS", 2), ("OD", 3), ("AR", 4),
   ("easy", 0), ("hidden", 0), ("hard_rock", 0), ("double_time", 0),
   ("half_time", 0), ("flashlight", 0),
   ("bpm-min", 5), ("bpm-max", 6),
   ("circle-count", 2), ("slider-count", 0), ("spinner-count", 0),
   ("slider-multiplier", 7), ("slider-tick-rate", 8),
   ("mean-pitch", 0), ("mean-roll", 0), ("mean-yaw", 0),
   ("median-pitch", 0), ("median-roll", 0), ("median-yaw", 0),
   ("max-pitch", 0), ("max-roll", 0), ("max-yaw", 0)]

theorem circle_not_spinner :
    (HitObjectKind.circle != HitObjectKind.spinner) = true := rfl

theorem slider_not_spinner :
    (HitObjectKind.slider != HitObjectKind.spinner) = true := rfl

theorem spinner_is_spinner :
    (HitObjectKind.spinner != HitObjectKind.spinner) = false := rfl

/-- Concrete evaluation of the extractor on `wB` with all flags false. -/
theorem wB_extract_eval :
    extract_features wAtan wB false false false false false false false
      = some wFeats := by
  norm_num [extract_features, featBody, featDict, wB, wFeats, wAtan,
    Beatmap.hit_objects_no_spinners, List.filter,
    circle_not_spinner, slider_not_spinner, spinner_is_spinner,
    hit_object_angles, hit_object_coordinates, diffs, listMean, listMedian,
    listMax, sortQ, insertQ, count_hit_objects, odArResolve, arBpmResolve,
    boolToQ, List.zipWith, List.zip, List.tail, List.sum, List.foldr,
    List.foldl, List.getD, List.get?]

/-- Claim C5 witness: the fixed schema at the concrete beatmap `wB`. -/
theorem extract_features_fixed_schema_witness :
    wFeats.map Prod.fst = schemaKeys ∧
      (sortByKey wFeats).map Prod.fst = sortedSchemaKeys :=
  extract_features_fixed_schema wAtan wB false false false false false false
    false wFeats wB_extract_eval

/-- Claim C6 witness: identity of the resolver at the concrete beatmap
`wB` with all flags false. -/
theorem no_mods_identity_witness :
    List.lookup ("OD") wFeats = some wB.od ∧
      List.lookup ("AR") wFeats = some wB.ar ∧
      List.lookup ("HP") wFeats = some wB.hp ∧
      List.lookup ("CS") wFeats = some wB.cs ∧
      List.lookup ("bpm-min") wFeats = some wB.bpm_min ∧
      List.lookup ("bpm-max") wFeats = some wB.bpm_max :=
  no_mods_identity wAtan wB wFeats wB_extract_eval

/-- Claim C7 witness: base HP and CS at the concrete beatmap `wB`. -/
theorem hp_cs_never_modified_witness :
    List.lookup ("HP") wFeats = some wB.hp ∧
      List.lookup ("CS") wFeats = some wB.cs :=
  hp_cs_never_modified wAtan wB false false false false false false false
    wFeats wB_extract_eval

/-- Claim C9 witness: `wB` has exactly 2 non-spinner hit objects and its
angle statistics coincide. -/
theorem two_object_stats_coincide_witness :
    List.lookup ("mean-pitch") wFeats = List.lookup ("median-pitch") wFeats ∧
      List.lookup ("median-pitch") wFeats = List.lookup ("max-pitch") wFeats ∧
      List.lookup ("mean-roll") wFeats = List.lookup ("median-roll") wFeats ∧
      List.lookup ("median-roll") wFeats = List.lookup ("max-roll") wFeats ∧
      List.lookup ("mean-yaw") wFeats = List.lookup ("median-yaw") wFeats ∧
      List.lookup ("median-yaw") wFeats = List.lookup ("max-yaw") wFeats :=
  two_object_stats_coincide wAtan wB false false false false false false false
    wFeats (by decide) wB_extract_eval

/-- Claim C10 witness: flipping relax to true at `wB` returns the same
mapping, and "relax" is not among its keys. -/
theorem relax_has_no_effect_witness :
    extract_features wAtan wB false false false false true false false
      = some wFeats ∧ ("relax") ∉ wFeats.map Prod.fst :=
  relax_has_no_effect wAtan wB false false false false false true false false
    wFeats wB_extract_eval

/-! ## Claim C8 -/

theorem keepEntry_false_of_modExcluded (now : ℚ) (age : Option ℚ)
    (e : DirEntry) (hm : modExcluded e.replay = true) :
    keepEntry now age e = false := by
  simp [keepEntry, hm]

theorem filter_keep_filter_mod (now : ℚ) (age : Option ℚ)
    (entries : List DirEntry) :
    (entries.filter fun e => !(modExcluded e.replay)).filter
        (keepEntry now age)
      = entries.filter (keepEntry now age) := by
  induction entries with
  | nil => rfl
  | cons e es ih =>
    by_cases hm : modExcluded e.replay
    · simp [List.filter_cons, hm,
        keepEntry_false_of_modExcluded now age e hm, ih]
    · simp only [Bool.not_eq_true] at hm
      simp [List.filter_cons, hm, ih]

/-- Claim C8: records whose modifiers include any of auto_play, spun_out,
auto_pilot, cinema or relax contribute no row and no label — running the
pipeline on the corpus equals running it on the corpus with those records
removed, so the surviving records keep their original relative order. -/
theorem excluded_mod_records_contribute_nothing (atan2F : ℚ → ℚ → ℚ)
    (entries : List DirEntry) (now : ℚ) (age : Option ℚ) :
    extract_from_replay_directory atan2F entries now age
      = extract_from_replay_directory atan2F
          (entries.filter fun e => !(modExcluded e.replay)) now age := by
  unfold extract_from_replay_directory
  rw [filter_keep_filter_mod]

/-! ## Claim C1 -/

/-- A degenerate beatmap: a single circle (fewer than 2 hit objects). -/
def wB1 : Beatmap :=
  ⟨[⟨⟨0, 0⟩, 0, HitObjectKind.circle⟩], 1, 2, 3, 4, 5, 6, 7, 8⟩

/-- A replay on the degenerate beatmap `wB1`, all mods off, accuracy 0.9. -/
def wR1 : Replay :=
  ⟨wB1, 0, false, false, false, false, false, false, false, false, false,
   false, false, 9 / 10⟩

/-- A replay on the well-formed beatmap `wB`, all mods off, accuracy 0.5. -/
def wR2 : Replay :=
  ⟨wB, 0, false, false, false, false, false, false, false, false, false,
   false, false, 1 / 2⟩

/-- A two-replay corpus whose first record sits on a degenerate beatmap. -/
def wEntries : List DirEntry := [⟨("a.osr"), wR1⟩, ⟨("b.osr"), wR2⟩]

/-- Claim C1 failing input: on `wEntries`, both replays survive every
filter of the scan loop, so both accuracies are recorded, but
`extract_feature_array` then drops the degenerate beatmap's row: the
matrix has 1 row while the label vector has 2 entries, and the label at
index 0 (0.9, from the dropped record) sits next to the feature row of the
other record.  Rows and labels are neither equal in count nor aligned. -/
theorem row_label_misalignment_on_degenerate_beatmap :
    ((extract_from_replay_directory wAtan wEntries 0 none).1).map
        List.length = some 1 ∧
      (extract_from_replay_directory wAtan wEntries 0 none).2
        = [9 / 10, 1 / 2] := by
  exact ⟨rfl, rfl⟩

/-! ## Claim C2 -/

/-- A beatmap of two spinners: 2 hit objects, 0 non-spinner hit objects. -/
def wBspin : Beatmap :=
  ⟨[⟨⟨0, 0⟩, 0, HitObjectKind.spinner⟩,
    ⟨⟨1, 1⟩, 1, HitObjectKind.spinner⟩],
   1, 2, 3, 4, 5, 6, 7, 8⟩

/-- Claim C2 failing input: `wBspin` passes the Dataset Builder's guard
(2 or more hit objects, spinners included), yet its spinner-excluded
sequence is empty, so the Feature Assembler's precondition fails and the
extraction dies (in Python: numpy raises), taking the whole batch with
it. -/
theorem guard_admits_spinner_only_beatmap :
    2 ≤ wBspin.hit_objects.length ∧
      wBspin.hit_objects_no_spinners.length = 0 ∧
      extract_features wAtan wBspin false false false false false false false
        = none ∧
      extract_feature_array wAtan
        [(wBspin, ⟨false, false, false, false, false, false⟩)] = none := by
  refine ⟨by decide, by decide, rfl, ?_⟩
  norm_num [extract_feature_array, List.filter, wBspin, traverseOption,
    extract_features, Beatmap.hit_objects_no_spinners, spinner_is_spinner]
